import Mathlib

/-!
Shallow embedding of the runtipi lifecycle core:
`SystemServiceClass` (src/server/services/system/system.service.ts) and
`AuthServiceClass` (logout / refreshToken), together with the ephemeral
TTL cache they use.  Effectful TypeScript methods become pure state-passing
functions: the cache is an association list with absolute expiry times,
external fetch results are an `Option String` parameter, and dispatched
events are collected in a list.
-/

namespace Runtipi

/-- One cache entry: a string value and an optional absolute expiry time
(seconds).  `none` means the entry never expires. -/
structure CacheEntry where
  value : String
  expiresAt : Option Nat
deriving DecidableEq, Repr

/-- Modelled from the spec: the Ephemeral Cache collaborator (TipiCache,
outside src/) — a TTL-keyed key-value store with `get`, `set` with optional
TTL, and `delete`; TTL is enforced by the backing store and absence after
expiry is indistinguishable from never-set. -/
abbrev Cache := List (String × CacheEntry)

/-- Drop every binding for `key` from the association list. -/
def Cache.removeKey : Cache → String → Cache
  | [], _ => []
  | p :: ps, key => if p.1 = key then Cache.removeKey ps key else p :: Cache.removeKey ps key

/-- First entry bound to `key`, expiry ignored. -/
def Cache.find : Cache → String → Option CacheEntry
  | [], _ => none
  | p :: ps, key => if p.1 = key then some p.2 else Cache.find ps key

/-- Modelled from the spec: `set(key, value, ttlSeconds?)` — stores the value
under the key; with a TTL the entry expires `ttl` seconds from now, without
one it does not expire. -/
def Cache.set (c : Cache) (key value : String) (now : Nat) (ttl : Option Nat) : Cache :=
  (key, ⟨value, ttl.map (fun d => now + d)⟩) :: Cache.removeKey c key

/-- Modelled from the spec: `get(key) -> value | absent`; an expired entry is
absent. -/
def Cache.get (c : Cache) (key : String) (now : Nat) : Option String :=
  match Cache.find c key with
  | none => none
  | some e =>
    match e.expiresAt with
    | none => some e.value
    | some exp => if now < exp then some e.value else none

/-- Modelled from the spec: `delete(key) -> ack`. -/
def Cache.del (c : Cache) (key : String) : Cache :=
  Cache.removeKey c key

/-- JavaScript `s.replace('v', '')`: removes the first occurrence of the
character `v` anywhere in the string (not only a leading one). -/
def removeFirstV : List Char → List Char
  | [] => []
  | c :: cs => if c = 'v' then cs else c :: removeFirstV cs

/-- `s.replace('v', '')` on a `String`. -/
def replaceV (s : String) : String :=
  ⟨removeFirstV s.data⟩

/-- The spec's words for the version cleanup: strip a single *leading*
version-prefix character `v`, leaving any other character untouched.  Kept
separate from `replaceV` (the source behaviour) so the two can be compared. -/
def stripLeadingV (s : String) : String :=
  match s.data with
  | 'v' :: rest => ⟨rest⟩
  | _ => s

/-- A parsed semantic version `major.minor.patch`. -/
structure SemVer where
  major : Nat
  minor : Nat
  patch : Nat
deriving DecidableEq, Repr

/-- Split a character list at every `.`. -/
def splitDots : List Char → List (List Char)
  | [] => [[]]
  | c :: cs =>
    if c = '.' then [] :: splitDots cs
    else
      match splitDots cs with
      | [] => [[c]]
      | g :: gs => (c :: g) :: gs

/-- Decimal digit value of a character, if it is a digit. -/
def charDigit? (c : Char) : Option Nat :=
  if '0' ≤ c ∧ c ≤ '9' then some (c.toNat - '0'.toNat) else none

/-- Accumulating decimal parser over a digit list. -/
def parseNatAux : List Char → Nat → Option Nat
  | [], acc => some acc
  | c :: cs, acc =>
    match charDigit? c with
    | some d => parseNatAux cs (acc * 10 + d)
    | none => none

/-- Parse a non-empty decimal digit list. -/
def parseNatChars : List Char → Option Nat
  | [] => none
  | cs => parseNatAux cs 0

/-- Parse a `major.minor.patch` version string, as the `semver` library does
for the plain numeric triples this service compares. -/
def parseSemVer (s : String) : Option SemVer :=
  match splitDots s.data with
  | [a, b, c] =>
    match parseNatChars a, parseNatChars b, parseNatChars c with
    | some x, some y, some z => some ⟨x, y, z⟩
    | _, _, _ => none
  | _ => none

/-- `semver.lt`: strict lexicographic order on (major, minor, patch).
`semver.gt current latest` in the source is `SemVer.ltb latest current`. -/
def SemVer.ltb (a b : SemVer) : Bool :=
  decide (a.major < b.major ∨
    (a.major = b.major ∧
      (a.minor < b.minor ∨ (a.minor = b.minor ∧ a.patch < b.patch))))

/-- The system-wide status enum `SYSTEM_STATUS`. -/
inductive SystemStatus
  | RUNNING
  | UPDATING
  | RESTARTING
deriving DecidableEq, Repr

/-- Modelled from the spec: the TipiConfig accessor (outside src/) — the
fields of `getConfig()` that the system service reads, plus the `status`
field written through `setConfig`. -/
structure TipiConfig where
  NODE_ENV : String
  version : String
  status : SystemStatus
deriving DecidableEq, Repr

/-- Typed failures of the system lifecycle operations.  Each constructor
names one `throw new Error(...)` site of the source (plus
`OperationInProgress`, which the spec describes). -/
inductive SysError
  | EnvironmentRestricted
  | VersionUnavailable
  | DowngradeRejected
  | AlreadyUpToDate
  | MajorVersionMismatch
  | OperationInProgress
  | InvalidVersion
deriving DecidableEq, Repr

deriving instance DecidableEq for Except

/-- What `getVersion` returns: `{ current: string; latest?: string }`. -/
structure VersionResult where
  current : String
  latest : Option String
deriving DecidableEq, Repr

/-- Full outcome of a `getVersion` call: its return value, the cache after
the call, how many external lookups were performed, and whether an error was
logged (the catch branch). -/
structure GetVersionOut where
  result : VersionResult
  cache : Cache
  fetchCount : Nat
  logged : Bool
deriving DecidableEq, Repr

/-- The cache-miss path of `getVersion`: fetch the release metadata; on
success set `version = release.name.replace('v','')`, cache
`version.replace('v','')` under `latestVersion` for `60 * 60` seconds and
return it as `latest`; on any failure log and return `latest = undefined`. -/
def getVersionMiss (cfg : TipiConfig) (cache : Cache) (now : Nat)
    (fetch : Option String) : GetVersionOut :=
  match fetch with
  | none => ⟨⟨cfg.version, none⟩, cache, 1, true⟩
  | some name =>
    let version := replaceV name
    ⟨⟨cfg.version, some (replaceV version)⟩,
      Cache.set cache "latestVersion" (replaceV version) now (some (60 * 60)), 1, false⟩

/-- `SystemServiceClass.getVersion`: read `latestVersion` from the cache; a
missing or empty value (JS falsiness) triggers the fetch path; a cached value
`v` is returned as `v.replace('v','')` with no fetch. -/
def getVersion (cfg : TipiConfig) (cache : Cache) (now : Nat)
    (fetch : Option String) : GetVersionOut :=
  match Cache.get cache "latestVersion" now with
  | none => getVersionMiss cfg cache now fetch
  | some v =>
    if v = "" then getVersionMiss cfg cache now fetch
    else ⟨⟨cfg.version, some (replaceV v)⟩, cache, 0, false⟩

/-- Full outcome of an `update` call: the returned value or thrown error, the
config (carrying `status`) after the call, the cache after the call, the
number of external lookups, and the dispatched events in order. -/
structure UpdateOut where
  result : Except SysError Bool
  config : TipiConfig
  cache : Cache
  fetchCount : Nat
  events : List String
deriving DecidableEq, Repr

/-- `SystemServiceClass.update`: resolve versions via `getVersion` first;
then reject a development environment, an unknown latest version, a downgrade
(`semver.gt current latest`), an equal version, and a differing major
component — in that order; otherwise set status to `UPDATING` and dispatch an
`update` event. -/
def update (cfg : TipiConfig) (cache : Cache) (now : Nat)
    (fetch : Option String) : UpdateOut :=
  let gv := getVersion cfg cache now fetch
  if cfg.NODE_ENV = "development" then
    ⟨.error .EnvironmentRestricted, cfg, gv.cache, gv.fetchCount, []⟩
  else
    match gv.result.latest with
    | none => ⟨.error .VersionUnavailable, cfg, gv.cache, gv.fetchCount, []⟩
    | some latest =>
      match parseSemVer gv.result.current, parseSemVer latest with
      | some c, some l =>
        if SemVer.ltb l c then
          ⟨.error .DowngradeRejected, cfg, gv.cache, gv.fetchCount, []⟩
        else if c = l then
          ⟨.error .AlreadyUpToDate, cfg, gv.cache, gv.fetchCount, []⟩
        else if c.major ≠ l.major then
          ⟨.error .MajorVersionMismatch, cfg, gv.cache, gv.fetchCount, []⟩
        else
          ⟨.ok true, { cfg with status := .UPDATING }, gv.cache, gv.fetchCount, ["update"]⟩
      | _, _ => ⟨.error .InvalidVersion, cfg, gv.cache, gv.fetchCount, []⟩

/-- Outcome of a `restart` call. -/
structure RestartOut where
  result : Except SysError Bool
  config : TipiConfig
  events : List String
deriving DecidableEq, Repr

/-- `SystemServiceClass.restart`: reject a development environment; otherwise
set status to `RESTARTING` and dispatch a `restart` event. -/
def restart (cfg : TipiConfig) : RestartOut :=
  if cfg.NODE_ENV = "development" then
    ⟨.error .EnvironmentRestricted, cfg, []⟩
  else
    ⟨.ok true, { cfg with status := .RESTARTING }, ["restart"]⟩

/-- A signed session token: the payload `jwt.sign({ id, session }, ...)`
carries, with the signature abstracted away. -/
structure Token where
  id : String
  session : String
deriving DecidableEq, Repr

/-- `AuthServiceClass.logout`: if a (truthy) session is given, delete it from
the cache; always return `true`. -/
def logout (cache : Cache) (session : Option String) : Bool × Cache :=
  match session with
  | none => (true, cache)
  | some s => if s = "" then (true, cache) else (true, Cache.del cache s)

/-- `AuthServiceClass.refreshToken`: a falsy session or a session with no
(truthy) cached user yields `null` and leaves the cache alone; otherwise the
old session is re-armed to a 6-second TTL, a fresh session id is mapped to
the same user with no TTL, and a token carrying the fresh session id is
returned.  The fresh `v4()` uuid is passed in as `newSession`. -/
def refreshToken (cache : Cache) (now : Nat) (session : Option String)
    (newSession : String) : Option Token × Cache :=
  match session with
  | none => (none, cache)
  | some s =>
    if s = "" then (none, cache)
    else
      match Cache.get cache s now with
      | none => (none, cache)
      | some userId =>
        if userId = "" then (none, cache)
        else
          let c1 := Cache.set cache s userId now (some 6)
          let c2 := Cache.set c1 newSession userId now none
          (some ⟨userId, newSession⟩, c2)

/-! ## Helper lemmas -/

theorem Cache.find_removeKey_self (c : Cache) (k : String) :
    Cache.find (Cache.removeKey c k) k = none := by
  induction c with
  | nil => rfl
  | cons hd tl ih =>
    by_cases h : hd.1 = k
    · simpa [Cache.removeKey, h] using ih
    · simpa [Cache.removeKey, Cache.find, h] using ih

theorem Cache.find_removeKey_other (c : Cache) (k k' : String) (h : k' ≠ k) :
    Cache.find (Cache.removeKey c k) k' = Cache.find c k' := by
  induction c with
  | nil => rfl
  | cons hd tl ih =>
    have h3 : k ≠ k' := Ne.symm h
    by_cases h1 : hd.1 = k
    · have h2 : hd.1 ≠ k' := by rw [h1]; exact fun e => h e.symm
      simpa [Cache.removeKey, Cache.find, h1, h2, h3] using ih
    · by_cases h2 : hd.1 = k'
      · simp [Cache.removeKey, Cache.find, h1, h2, h]
      · simpa [Cache.removeKey, Cache.find, h1, h2] using ih

theorem Cache.get_set_self (c : Cache) (k v : String) (now t : Nat) (ttl : Option Nat) :
    Cache.get (Cache.set c k v now ttl) k t =
      match ttl with
      | none => some v
      | some d => if t < now + d then some v else none := by
  cases ttl <;> simp [Cache.get, Cache.set, Cache.find]

theorem Cache.get_set_other (c : Cache) (k k' v : String) (now t : Nat) (ttl : Option Nat)
    (h : k' ≠ k) :
    Cache.get (Cache.set c k v now ttl) k' t = Cache.get c k' t := by
  have h2 : k ≠ k' := Ne.symm h
  simp [Cache.get, Cache.set, Cache.find, h2, Cache.find_removeKey_other c k k' h]

theorem Cache.get_del_self (c : Cache) (k : String) (t : Nat) :
    Cache.get (Cache.del c k) k t = none := by
  simp [Cache.get, Cache.del, Cache.find_removeKey_self]

theorem SemVer.ltb_iff (a b : SemVer) :
    SemVer.ltb a b = true ↔
      (a.major < b.major ∨
        (a.major = b.major ∧
          (a.minor < b.minor ∨ (a.minor = b.minor ∧ a.patch < b.patch)))) := by
  simp [SemVer.ltb]

theorem SemVer.ltb_irrefl (a : SemVer) : SemVer.ltb a a = false := by
  simp [SemVer.ltb]

theorem SemVer.ltb_asymm {a b : SemVer} (h : SemVer.ltb a b = true) :
    SemVer.ltb b a = false := by
  rw [SemVer.ltb_iff] at h
  rw [Bool.eq_false_iff, Ne, SemVer.ltb_iff]
  omega

theorem SemVer.ne_of_ltb {a b : SemVer} (h : SemVer.ltb a b = true) : a ≠ b := by
  intro e
  rw [e, SemVer.ltb_irrefl] at h
  exact Bool.false_ne_true h

theorem getVersion_current (cfg : TipiConfig) (cache : Cache) (now : Nat)
    (fetch : Option String) :
    (getVersion cfg cache now fetch).result.current = cfg.version := by
  unfold getVersion getVersionMiss
  cases Cache.get cache "latestVersion" now with
  | none => cases fetch <;> rfl
  | some v =>
    by_cases h : v = ""
    · subst h
      cases fetch <;> rfl
    · simp [h]

theorem update_result_ne_opip (cfg : TipiConfig) (cache : Cache) (now : Nat)
    (fetch : Option String) :
    (update cfg cache now fetch).result ≠ .error .OperationInProgress := by
  by_cases h : cfg.NODE_ENV = "development"
  · simp [update, h]
  · cases hl : (getVersion cfg cache now fetch).result.latest with
    | none => simp [update, h, hl]
    | some lat =>
      cases hc : parseSemVer (getVersion cfg cache now fetch).result.current with
      | none => simp [update, h, hl, hc]
      | some c =>
        cases hp : parseSemVer lat with
        | none => simp [update, h, hl, hc, hp]
        | some l =>
          by_cases h1 : SemVer.ltb l c = true
          · simp [update, h, hl, hc, hp, h1]
          · have h1' : SemVer.ltb l c = false := by
              simpa using h1
            by_cases h2 : c = l
            · simp [update, h, hl, hc, hp, h1', h2, SemVer.ltb_irrefl]
            · by_cases h3 : c.major = l.major
              · simp [update, h, hl, hc, hp, h1', h2, h3]
              · simp [update, h, hl, hc, hp, h1', h2, h3]

theorem update_status_irrelevant (cfg : TipiConfig) (cache : Cache) (now : Nat)
    (fetch : Option String) (st : SystemStatus) :
    (update { cfg with status := st } cache now fetch).result =
      (update cfg cache now fetch).result ∧
    (update { cfg with status := st } cache now fetch).events =
      (update cfg cache now fetch).events := by
  have hgv : getVersion { cfg with status := st } cache now fetch =
      getVersion cfg cache now fetch := rfl
  by_cases h : cfg.NODE_ENV = "development"
  · simp [update, hgv, h]
  · cases hl : (getVersion cfg cache now fetch).result.latest with
    | none => simp [update, hgv, h, hl]
    | some lat =>
      cases hc : parseSemVer (getVersion cfg cache now fetch).result.current with
      | none => simp [update, hgv, h, hl, hc]
      | some c =>
        cases hp : parseSemVer lat with
        | none => simp [update, hgv, h, hl, hc, hp]
        | some l =>
          by_cases h1 : SemVer.ltb l c = true
          · simp [update, hgv, h, hl, hc, hp, h1]
          · have h1' : SemVer.ltb l c = false := by
              simpa using h1
            by_cases h2 : c = l
            · simp [update, hgv, h, hl, hc, hp, h1', h2, SemVer.ltb_irrefl]
            · by_cases h3 : c.major = l.major
              · simp [update, hgv, h, hl, hc, hp, h1', h2, h3]
              · simp [update, hgv, h, hl, hc, hp, h1', h2, h3]

/-! ## Claim theorems -/

/-- C1 (counterexample): with the system status already UPDATING, in a
production environment with an eligible latest version, `update` does not
fail with `OperationInProgress` — it succeeds and re-publishes the `update`
event, so the claimed status guard does not exist in the code. -/
theorem update_while_updating_republishes :
    (⟨"production", "1.0.0", SystemStatus.UPDATING⟩ : TipiConfig).status ≠
      SystemStatus.RUNNING ∧
    (update ⟨"production", "1.0.0", SystemStatus.UPDATING⟩ [] 0 (some "v1.1.0")).result =
      .ok true ∧
    (update ⟨"production", "1.0.0", SystemStatus.UPDATING⟩ [] 0 (some "v1.1.0")).result ≠
      .error .OperationInProgress ∧
    (update ⟨"production", "1.0.0", SystemStatus.UPDATING⟩ [] 0 (some "v1.1.0")).events =
      ["update"] := by
  refine ⟨by decide, by decide, by decide, by decide⟩

/-- C1 (amended): `update` never fails with `OperationInProgress` and does not
consult the current system status at all: for any status other than RUNNING
its returned result and dispatched events are exactly those of the same call
in status RUNNING (so an eligible request re-publishes the `update` event even
while an update or restart is already in flight). -/
theorem update_has_no_status_guard (cfg : TipiConfig) (cache : Cache) (now : Nat)
    (fetch : Option String) (h : cfg.status ≠ SystemStatus.RUNNING) :
    (update cfg cache now fetch).result ≠ .error .OperationInProgress ∧
    (update cfg cache now fetch).result =
      (update { cfg with status := SystemStatus.RUNNING } cache now fetch).result ∧
    (update cfg cache now fetch).events =
      (update { cfg with status := SystemStatus.RUNNING } cache now fetch).events := by
  have h1 := update_status_irrelevant cfg cache now fetch SystemStatus.RUNNING
  exact ⟨update_result_ne_opip cfg cache now fetch, h1.1.symm, h1.2.symm⟩

/-- C1 witness. -/
theorem update_has_no_status_guard_witness :
    (⟨"production", "1.2.0", SystemStatus.RESTARTING⟩ : TipiConfig).status ≠
      SystemStatus.RUNNING ∧
    (update ⟨"production", "1.2.0", SystemStatus.RESTARTING⟩ [] 5 none).result ≠
      .error .OperationInProgress ∧
    (update ⟨"production", "1.2.0", SystemStatus.RESTARTING⟩ [] 5 none).result =
      (update ⟨"production", "1.2.0", SystemStatus.RUNNING⟩ [] 5 none).result ∧
    (update ⟨"production", "1.2.0", SystemStatus.RESTARTING⟩ [] 5 none).events =
      (update ⟨"production", "1.2.0", SystemStatus.RUNNING⟩ [] 5 none).events := by
  refine ⟨by decide, ?_⟩
  exact update_has_no_status_guard ⟨"production", "1.2.0", SystemStatus.RESTARTING⟩ [] 5 none
    (by decide)

/-- C2: in a production environment with both versions known, `update`
returns `AlreadyUpToDate` when current = latest, `DowngradeRejected` when
current is semver-greater than latest, `MajorVersionMismatch` when current is
less than latest with a different major component, and succeeds when current
is less than latest with the same major — setting status to UPDATING and
publishing an `update` event. -/
theorem update_version_gates (cfg : TipiConfig) (cache : Cache) (now : Nat)
    (fetch : Option String) (lat : String) (c l : SemVer)
    (henv : cfg.NODE_ENV = "production")
    (hlat : (getVersion cfg cache now fetch).result.latest = some lat)
    (hc : parseSemVer cfg.version = some c)
    (hl : parseSemVer lat = some l) :
    (c = l → (update cfg cache now fetch).result = .error .AlreadyUpToDate) ∧
    (SemVer.ltb l c = true →
      (update cfg cache now fetch).result = .error .DowngradeRejected) ∧
    (SemVer.ltb c l = true → c.major ≠ l.major →
      (update cfg cache now fetch).result = .error .MajorVersionMismatch) ∧
    (SemVer.ltb c l = true → c.major = l.major →
      (update cfg cache now fetch).result = .ok true ∧
      (update cfg cache now fetch).config.status = SystemStatus.UPDATING ∧
      (update cfg cache now fetch).events = ["update"]) := by
  have hcur : parseSemVer (getVersion cfg cache now fetch).result.current = some c := by
    rw [getVersion_current]
    exact hc
  have henv' : ¬ cfg.NODE_ENV = "development" := by
    rw [henv]
    decide
  refine ⟨?_, ?_, ?_, ?_⟩
  · rintro rfl
    simp [update, henv', hlat, hcur, hl, SemVer.ltb_irrefl]
  · intro hlt
    simp [update, henv', hlat, hcur, hl, hlt]
  · intro hlt hmaj
    have h1 := SemVer.ltb_asymm hlt
    have h2 := SemVer.ne_of_ltb hlt
    simp [update, henv', hlat, hcur, hl, h1, h2, hmaj]
  · intro hlt hmaj
    have h1 := SemVer.ltb_asymm hlt
    have h2 := SemVer.ne_of_ltb hlt
    simp [update, henv', hlat, hcur, hl, h1, h2, hmaj]

/-- C2 witness: current 1.0.0, latest 1.1.0 (fetched as "v1.1.0") — success,
status UPDATING, `update` published. -/
theorem update_version_gates_witness :
    ((⟨"production", "1.0.0", SystemStatus.RUNNING⟩ : TipiConfig).NODE_ENV = "production") ∧
    ((getVersion ⟨"production", "1.0.0", SystemStatus.RUNNING⟩ [] 0
        (some "v1.1.0")).result.latest = some "1.1.0") ∧
    parseSemVer "1.0.0" = some ⟨1, 0, 0⟩ ∧
    parseSemVer "1.1.0" = some ⟨1, 1, 0⟩ ∧
    SemVer.ltb ⟨1, 0, 0⟩ ⟨1, 1, 0⟩ = true ∧
    ((update ⟨"production", "1.0.0", SystemStatus.RUNNING⟩ [] 0 (some "v1.1.0")).result =
        .ok true ∧
      (update ⟨"production", "1.0.0", SystemStatus.RUNNING⟩ [] 0
          (some "v1.1.0")).config.status = SystemStatus.UPDATING ∧
      (update ⟨"production", "1.0.0", SystemStatus.RUNNING⟩ [] 0 (some "v1.1.0")).events =
        ["update"]) := by
  refine ⟨rfl, by decide, by decide, by decide, by decide, ?_⟩
  exact (update_version_gates ⟨"production", "1.0.0", SystemStatus.RUNNING⟩ [] 0
    (some "v1.1.0") "1.1.0" ⟨1, 0, 0⟩ ⟨1, 1, 0⟩ rfl (by decide) (by decide)
    (by decide)).2.2.2 (by decide) rfl

/-- C3 (counterexample): with the system status already UPDATING, in a
production environment, `restart` does not fail with `OperationInProgress` —
it succeeds, sets RESTARTING and publishes the `restart` event, so the
claimed status guard does not exist in the code. -/
theorem restart_while_updating_republishes :
    (⟨"production", "1.0.0", SystemStatus.UPDATING⟩ : TipiConfig).status ≠
      SystemStatus.RUNNING ∧
    (restart ⟨"production", "1.0.0", SystemStatus.UPDATING⟩).result = .ok true ∧
    (restart ⟨"production", "1.0.0", SystemStatus.UPDATING⟩).result ≠
      .error .OperationInProgress ∧
    (restart ⟨"production", "1.0.0", SystemStatus.UPDATING⟩).events = ["restart"] := by
  refine ⟨by decide, by decide, by decide, by decide⟩

/-- C3 (amended): `restart` never fails with `OperationInProgress`; outside a
development environment it always — regardless of the current status — sets
status to RESTARTING and publishes a `restart` event. -/
theorem restart_has_no_status_guard (cfg : TipiConfig) :
    (restart cfg).result ≠ .error .OperationInProgress ∧
    (cfg.NODE_ENV ≠ "development" →
      (restart cfg).result = .ok true ∧
      (restart cfg).config.status = SystemStatus.RESTARTING ∧
      (restart cfg).events = ["restart"]) := by
  constructor
  · by_cases h : cfg.NODE_ENV = "development" <;> simp [restart, h]
  · intro h
    simp [restart, h]

/-- C3 witness. -/
theorem restart_has_no_status_guard_witness :
    ((⟨"production", "2.3.4", SystemStatus.RESTARTING⟩ : TipiConfig).NODE_ENV ≠
      "development") ∧
    ((restart ⟨"production", "2.3.4", SystemStatus.RESTARTING⟩).result ≠
      .error .OperationInProgress) ∧
    ((restart ⟨"production", "2.3.4", SystemStatus.RESTARTING⟩).result = .ok true ∧
      (restart ⟨"production", "2.3.4", SystemStatus.RESTARTING⟩).config.status =
        SystemStatus.RESTARTING ∧
      (restart ⟨"production", "2.3.4", SystemStatus.RESTARTING⟩).events = ["restart"]) := by
  have h := restart_has_no_status_guard ⟨"production", "2.3.4", SystemStatus.RESTARTING⟩
  exact ⟨by decide, h.1, h.2 (by decide)⟩

/-- C4: in a development environment both `update` and `restart` fail with
`EnvironmentRestricted`, write no new system status and publish no event. -/
theorem dev_env_restricts_update_and_restart (cfg : TipiConfig) (cache : Cache)
    (now : Nat) (fetch : Option String) (h : cfg.NODE_ENV = "development") :
    (update cfg cache now fetch).result = .error .EnvironmentRestricted ∧
    (update cfg cache now fetch).config = cfg ∧
    (update cfg cache now fetch).events = [] ∧
    (restart cfg).result = .error .EnvironmentRestricted ∧
    (restart cfg).config = cfg ∧
    (restart cfg).events = [] := by
  refine ⟨?_, ?_, ?_, ?_, ?_, ?_⟩ <;> simp [update, restart, h]

/-- C4 witness. -/
theorem dev_env_restricts_update_and_restart_witness :
    ((⟨"development", "1.0.0", SystemStatus.RUNNING⟩ : TipiConfig).NODE_ENV =
      "development") ∧
    ((update ⟨"development", "1.0.0", SystemStatus.RUNNING⟩ [] 0 none).result =
        .error .EnvironmentRestricted ∧
      (update ⟨"development", "1.0.0", SystemStatus.RUNNING⟩ [] 0 none).config =
        ⟨"development", "1.0.0", SystemStatus.RUNNING⟩ ∧
      (update ⟨"development", "1.0.0", SystemStatus.RUNNING⟩ [] 0 none).events = [] ∧
      (restart ⟨"development", "1.0.0", SystemStatus.RUNNING⟩).result =
        .error .EnvironmentRestricted ∧
      (restart ⟨"development", "1.0.0", SystemStatus.RUNNING⟩).config =
        ⟨"development", "1.0.0", SystemStatus.RUNNING⟩ ∧
      (restart ⟨"development", "1.0.0", SystemStatus.RUNNING⟩).events = []) :=
  ⟨rfl, dev_env_restricts_update_and_restart ⟨"development", "1.0.0", SystemStatus.RUNNING⟩
    [] 0 none rfl⟩

/-- C5: `getVersion` never propagates a failure: it is total, its `current`
field always comes from the local config version, and when the external
lookup fails on a cache miss, `latest` is `none`, the failure is logged, and
the cache is untouched. -/
theorem getVersion_degrades_gracefully (cfg : TipiConfig) (cache : Cache) (now : Nat)
    (fetch : Option String) :
    (getVersion cfg cache now fetch).result.current = cfg.version ∧
    ((Cache.get cache "latestVersion" now = none ∨
        Cache.get cache "latestVersion" now = some "") →
      fetch = none →
      (getVersion cfg cache now fetch).result.latest = none ∧
      (getVersion cfg cache now fetch).logged = true ∧
      (getVersion cfg cache now fetch).cache = cache) := by
  refine ⟨getVersion_current cfg cache now fetch, ?_⟩
  rintro (hm | hm) rfl <;> simp [getVersion, getVersionMiss, hm]

/-- C5 witness. -/
theorem getVersion_degrades_gracefully_witness :
    ((getVersion ⟨"production", "1.0.0", SystemStatus.RUNNING⟩ [] 7 none).result.current =
      "1.0.0") ∧
    (Cache.get ([] : Cache) "latestVersion" 7 = none ∨
      Cache.get ([] : Cache) "latestVersion" 7 = some "") ∧
    ((getVersion ⟨"production", "1.0.0", SystemStatus.RUNNING⟩ [] 7 none).result.latest =
        none ∧
      (getVersion ⟨"production", "1.0.0", SystemStatus.RUNNING⟩ [] 7 none).logged = true ∧
      (getVersion ⟨"production", "1.0.0", SystemStatus.RUNNING⟩ [] 7 none).cache = []) := by
  have h := getVersion_degrades_gracefully ⟨"production", "1.0.0", SystemStatus.RUNNING⟩
    [] 7 none
  exact ⟨h.1, Or.inl (by decide), h.2 (Or.inl (by decide)) rfl⟩

/-- C6 (counterexample): the version cleanup is not a leading-prefix strip.
On a cache miss returning release name "1v2", the code removes the inner `v`
and returns (and caches) "12", not "1v2"; and on a cache hit with cached
value "v1", the code returns "1", not the cached value itself. -/
theorem getVersion_strips_inner_v :
    Cache.get ([] : Cache) "latestVersion" 0 = none ∧
    stripLeadingV "1v2" = "1v2" ∧
    (getVersion ⟨"production", "1.0.0", SystemStatus.RUNNING⟩ [] 0
        (some "1v2")).result.latest = some "12" ∧
    (getVersion ⟨"production", "1.0.0", SystemStatus.RUNNING⟩ [] 0
        (some "1v2")).result.latest ≠ some (stripLeadingV "1v2") ∧
    Cache.get [("latestVersion", ⟨"v1", none⟩)] "latestVersion" 0 = some "v1" ∧
    (getVersion ⟨"production", "1.0.0", SystemStatus.RUNNING⟩
        [("latestVersion", ⟨"v1", none⟩)] 0 none).result.latest = some "1" := by
  refine ⟨by decide, by decide, by decide, by decide, by decide, by decide⟩

/-- C6 (amended): on a cache miss (no cached `latestVersion`, or a cached
empty string) `getVersion` performs exactly one external lookup, removes the
first two occurrences of the character `v` anywhere in the returned name (the
replace is applied twice, and removes the first occurrence wherever it is,
not only a leading prefix), caches that string under `latestVersion` for one
hour (3600 seconds) and returns it as `latest`; on a cache hit it performs no
lookup, leaves the cache unchanged, and returns the cached value with its
first `v` occurrence removed (the cached value itself whenever it contains no
`v`). -/
theorem getVersion_cache_protocol (cfg : TipiConfig) (cache : Cache) (now : Nat)
    (fetch : Option String) (name v : String) :
    ((Cache.get cache "latestVersion" now = none ∨
        Cache.get cache "latestVersion" now = some "") →
      fetch = some name →
      (getVersion cfg cache now fetch).fetchCount = 1 ∧
      (getVersion cfg cache now fetch).result.latest = some (replaceV (replaceV name)) ∧
      (getVersion cfg cache now fetch).cache =
        Cache.set cache "latestVersion" (replaceV (replaceV name)) now (some 3600) ∧
      Cache.get (getVersion cfg cache now fetch).cache "latestVersion" now =
        some (replaceV (replaceV name))) ∧
    (Cache.get cache "latestVersion" now = some v → v ≠ "" →
      (getVersion cfg cache now fetch).fetchCount = 0 ∧
      (getVersion cfg cache now fetch).result.latest = some (replaceV v) ∧
      (getVersion cfg cache now fetch).cache = cache) := by
  constructor
  · rintro hm rfl
    have hgv : getVersion cfg cache now (some name) =
        getVersionMiss cfg cache now (some name) := by
      rcases hm with hm | hm <;> simp [getVersion, hm]
    rw [hgv]
    refine ⟨rfl, rfl, rfl, ?_⟩
    show Cache.get (Cache.set cache "latestVersion" (replaceV (replaceV name)) now
      (some (60 * 60))) "latestVersion" now = some (replaceV (replaceV name))
    rw [Cache.get_set_self]
    exact if_pos (by omega)
  · intro hm hv
    simp [getVersion, hm, hv]

/-- C6 witness: miss path with release name "v1.2.3" at time 10. -/
theorem getVersion_cache_protocol_witness :
    (Cache.get ([] : Cache) "latestVersion" 10 = none ∨
      Cache.get ([] : Cache) "latestVersion" 10 = some "") ∧
    ((getVersion ⟨"production", "1.0.0", SystemStatus.RUNNING⟩ [] 10
        (some "v1.2.3")).fetchCount = 1 ∧
      (getVersion ⟨"production", "1.0.0", SystemStatus.RUNNING⟩ [] 10
        (some "v1.2.3")).result.latest = some (replaceV (replaceV "v1.2.3")) ∧
      (getVersion ⟨"production", "1.0.0", SystemStatus.RUNNING⟩ [] 10
        (some "v1.2.3")).cache =
        Cache.set [] "latestVersion" (replaceV (replaceV "v1.2.3")) 10 (some 3600) ∧
      Cache.get (getVersion ⟨"production", "1.0.0", SystemStatus.RUNNING⟩ [] 10
        (some "v1.2.3")).cache "latestVersion" 10 = some (replaceV (replaceV "v1.2.3"))) :=
  ⟨Or.inl (by decide),
    (getVersion_cache_protocol ⟨"production", "1.0.0", SystemStatus.RUNNING⟩ [] 10
      (some "v1.2.3") "v1.2.3" "x").1 (Or.inl (by decide)) rfl⟩

/-- C7: refreshing a session `s` currently mapped to user `u` returns a token
carrying a fresh session id `newS` mapped to `u`, and re-arms `s` to a
6-second TTL instead of deleting it: `s` still resolves to `u` strictly
before `now + 6` and is absent from `now + 6` on. -/
theorem refreshToken_rotates_session (cache : Cache) (now : Nat) (s u newS : String)
    (hs : s ≠ "") (hu : u ≠ "") (hne : newS ≠ s)
    (hget : Cache.get cache s now = some u) :
    (refreshToken cache now (some s) newS).1 = some ⟨u, newS⟩ ∧
    (∀ t, Cache.get (refreshToken cache now (some s) newS).2 newS t = some u) ∧
    (∀ t, t < now + 6 → Cache.get (refreshToken cache now (some s) newS).2 s t = some u) ∧
    (∀ t, now + 6 ≤ t → Cache.get (refreshToken cache now (some s) newS).2 s t = none) := by
  have hrt : refreshToken cache now (some s) newS =
      (some ⟨u, newS⟩, Cache.set (Cache.set cache s u now (some 6)) newS u now none) := by
    simp [refreshToken, hs, hget, hu]
  rw [hrt]
  refine ⟨rfl, ?_, ?_, ?_⟩
  · intro t
    rw [Cache.get_set_self]
  · intro t ht
    rw [Cache.get_set_other _ _ _ _ _ _ _ (Ne.symm hne), Cache.get_set_self]
    exact if_pos ht
  · intro t ht
    rw [Cache.get_set_other _ _ _ _ _ _ _ (Ne.symm hne), Cache.get_set_self]
    exact if_neg (by omega)

/-- C7 witness: session "a" for user "42", refreshed at time 0 to session
"b"; "a" is still valid at time 5 and absent at time 6. -/
theorem refreshToken_rotates_session_witness :
    Cache.get [("a", ⟨"42", none⟩)] "a" 0 = some "42" ∧
    ((refreshToken [("a", ⟨"42", none⟩)] 0 (some "a") "b").1 = some ⟨"42", "b"⟩ ∧
      Cache.get (refreshToken [("a", ⟨"42", none⟩)] 0 (some "a") "b").2 "b" 100 =
        some "42" ∧
      Cache.get (refreshToken [("a", ⟨"42", none⟩)] 0 (some "a") "b").2 "a" 5 =
        some "42" ∧
      Cache.get (refreshToken [("a", ⟨"42", none⟩)] 0 (some "a") "b").2 "a" 6 = none) := by
  have h := refreshToken_rotates_session [("a", ⟨"42", none⟩)] 0 "a" "42" "b"
    (by decide) (by decide) (by decide) (by decide)
  exact ⟨by decide, h.1, h.2.1 100, h.2.2.1 5 (by omega), h.2.2.2 6 (by omega)⟩

/-- C8: even when `update` fails with the development-environment
restriction, the version lookup still ran first: on a cache miss with a
successful fetch, the call performs one external lookup and writes
`latestVersion` into the cache, and only then fails with
`EnvironmentRestricted`. -/
theorem update_dev_still_fetches (cfg : TipiConfig) (cache : Cache) (now : Nat)
    (name : String) (henv : cfg.NODE_ENV = "development")
    (hmiss : Cache.get cache "latestVersion" now = none) :
    (update cfg cache now (some name)).result = .error .EnvironmentRestricted ∧
    (update cfg cache now (some name)).fetchCount = 1 ∧
    (update cfg cache now (some name)).cache =
      Cache.set cache "latestVersion" (replaceV (replaceV name)) now (some 3600) ∧
    Cache.get (update cfg cache now (some name)).cache "latestVersion" now =
      some (replaceV (replaceV name)) := by
  have hgv : getVersion cfg cache now (some name) =
      getVersionMiss cfg cache now (some name) := by
    simp [getVersion, hmiss]
  have hup : update cfg cache now (some name) =
      ⟨.error .EnvironmentRestricted, cfg,
        Cache.set cache "latestVersion" (replaceV (replaceV name)) now (some (60 * 60)),
        1, []⟩ := by
    simp [update, henv, hgv, getVersionMiss]
  rw [hup]
  refine ⟨rfl, rfl, rfl, ?_⟩
  rw [Cache.get_set_self]
  exact if_pos (by omega)

/-- C8 witness. -/
theorem update_dev_still_fetches_witness :
    ((⟨"development", "1.0.0", SystemStatus.RUNNING⟩ : TipiConfig).NODE_ENV =
      "development") ∧
    Cache.get ([] : Cache) "latestVersion" 3 = none ∧
    ((update ⟨"development", "1.0.0", SystemStatus.RUNNING⟩ [] 3 (some "v1.1.0")).result =
        .error .EnvironmentRestricted ∧
      (update ⟨"development", "1.0.0", SystemStatus.RUNNING⟩ [] 3
        (some "v1.1.0")).fetchCount = 1 ∧
      (update ⟨"development", "1.0.0", SystemStatus.RUNNING⟩ [] 3 (some "v1.1.0")).cache =
        Cache.set [] "latestVersion" (replaceV (replaceV "v1.1.0")) 3 (some 3600) ∧
      Cache.get (update ⟨"development", "1.0.0", SystemStatus.RUNNING⟩ [] 3
        (some "v1.1.0")).cache "latestVersion" 3 = some (replaceV (replaceV "v1.1.0"))) :=
  ⟨rfl, by decide,
    update_dev_still_fetches ⟨"development", "1.0.0", SystemStatus.RUNNING⟩ [] 3 "v1.1.0"
      rfl (by decide)⟩

/-- C9: `refreshToken` with a missing session id, or with a session id that
has no live cache entry, returns `null` and leaves the cache exactly as it
was. -/
theorem refreshToken_invalid_session (cache : Cache) (now : Nat) (newS s : String) :
    refreshToken cache now none newS = (none, cache) ∧
    (s ≠ "" → Cache.get cache s now = none →
      refreshToken cache now (some s) newS = (none, cache)) := by
  constructor
  · rfl
  · intro hs hget
    simp [refreshToken, hs, hget]

/-- C9 witness: an expired session ("a" expired at time 4, queried at 9). -/
theorem refreshToken_invalid_session_witness :
    ("a" : String) ≠ "" ∧
    Cache.get [("a", ⟨"42", some 4⟩)] "a" 9 = none ∧
    refreshToken [("a", ⟨"42", some 4⟩)] 9 none "b" = (none, [("a", ⟨"42", some 4⟩)]) ∧
    refreshToken [("a", ⟨"42", some 4⟩)] 9 (some "a") "b" =
      (none, [("a", ⟨"42", some 4⟩)]) := by
  have h := refreshToken_invalid_session [("a", ⟨"42", some 4⟩)] 9 "b" "a"
  exact ⟨by decide, by decide, h.1, h.2 (by decide) (by decide)⟩

/-- C10: `logout` returns `true` on every input; with a (truthy) session id
the corresponding cache entry is deleted, and with no session id the cache is
left untouched. -/
theorem logout_always_succeeds (cache : Cache) (sess : Option String) (now : Nat) :
    (logout cache sess).1 = true ∧
    (∀ s, sess = some s → s ≠ "" →
      (logout cache sess).2 = Cache.del cache s ∧
      Cache.get (logout cache sess).2 s now = none) ∧
    (sess = none → (logout cache sess).2 = cache) := by
  refine ⟨?_, ?_, ?_⟩
  · cases sess with
    | none => rfl
    | some s => by_cases h : s = "" <;> simp [logout, h]
  · rintro s rfl hs
    simp only [logout]
    rw [if_neg hs]
    exact ⟨rfl, Cache.get_del_self cache s now⟩
  · rintro rfl
    rfl

/-- C10 witness. -/
theorem logout_always_succeeds_witness :
    (logout [("a", ⟨"42", none⟩)] (some "a")).1 = true ∧
    ("a" : String) ≠ "" ∧
    (logout [("a", ⟨"42", none⟩)] (some "a")).2 = Cache.del [("a", ⟨"42", none⟩)] "a" ∧
    Cache.get (logout [("a", ⟨"42", none⟩)] (some "a")).2 "a" 0 = none ∧
    (logout [("a", ⟨"42", none⟩)] none).2 = [("a", ⟨"42", none⟩)] := by
  have h := logout_always_succeeds [("a", ⟨"42", none⟩)] (some "a") 0
  have h2 := logout_always_succeeds [("a", ⟨"42", none⟩)] none 0
  have h3 := h.2.1 "a" rfl (by decide)
  exact ⟨h.1, by decide, h3.1, h3.2, h2.2.2 rfl⟩

end Runtipi
